import Mathlib

/-!
Verification development for the PAPPL printer-IPP request handlers
(src/pappl/printer-ipp.c).  The IPP attribute model, the admission
function `valid_job_attributes`, and the per-operation handlers are
shallowly embedded as executable Lean functions, translated from the C
source.  External collaborators that are not part of this repository
slice (the IPP codec getters follow the CUPS documented semantics;
driver-support string parsers, media import, and job creation follow
the specification) are either passed in as parameters (`Ext`) or are
marked `Modelled from the spec:` in their doc comments.
-/

namespace Pappl

/-- IPP value/group tags used by the embedded handlers (a subset of the
CUPS `ipp_tag_t` enumeration, covering every tag the translated code
mentions). -/
inductive IppTag where
  | zero
  | operationGroup
  | jobGroup
  | printerGroup
  | unsupportedGroup
  | integer
  | boolean
  | enumTag
  | keyword
  | nameTag
  | nameLang
  | text
  | uri
  | mimetype
  | rangeTag
  | resolution
  | beginCollection
  deriving DecidableEq, Repr

/-- Resolution units: `true` means dots-per-inch (IPP_RES_PER_INCH). -/
abbrev ResPerInch := Bool

mutual
/-- An IPP attribute value.  Collections nest: a collection value holds
an attribute list. -/
inductive IppVal : Type where
  | vInt (v : Int)
  | vBool (b : Bool)
  | vStr (s : String)
  | vRange (lo hi : Int)
  | vRes (x y : Int) (perInch : ResPerInch)
  | vCol (attrs : List IppAttr)

/-- An IPP attribute: group tag, value tag, name, ordered values.  A
name of `""` models a C attribute whose `ippGetName` is NULL (a group
separator). -/
inductive IppAttr : Type where
  | mk (group : IppTag) (tag : IppTag) (name : String) (vals : List IppVal)
end

/-- Group tag of an attribute (`ippGetGroupTag`). -/
def IppAttr.group : IppAttr → IppTag
  | .mk g _ _ _ => g

/-- Value tag of an attribute (`ippGetValueTag`). -/
def IppAttr.tag : IppAttr → IppTag
  | .mk _ t _ _ => t

/-- Name of an attribute (`ippGetName`; `""` for NULL). -/
def IppAttr.name : IppAttr → String
  | .mk _ _ n _ => n

/-- Values of an attribute. -/
def IppAttr.vals : IppAttr → List IppVal
  | .mk _ _ _ v => v

/-- Replace the group tag of an attribute (`ippSetGroupTag`). -/
def IppAttr.setGroup (a : IppAttr) (g : IppTag) : IppAttr :=
  .mk g a.tag a.name a.vals

/-- `ippGetCount`: the number of values of an attribute. -/
def ippGetCount (a : IppAttr) : Nat :=
  a.vals.length

/-- Tag match used by `ippFindAttribute`: an explicit tag matches the
value tag exactly, `IPP_TAG_ZERO` matches anything, and searching for
`name` (resp. `text`) also finds `nameWithLanguage` (resp.
`textWithLanguage`) attributes, per the CUPS lookup rules. -/
def tagMatches (valueTag search : IppTag) : Bool :=
  search == .zero || valueTag == search ||
    (valueTag == .nameLang && search == .nameTag)

/-- `ippFindAttribute`: the first attribute in the message with the
given name whose value tag matches the search tag. -/
def ippFindAttribute (msg : List IppAttr) (name : String) (tag : IppTag) :
    Option IppAttr :=
  msg.find? (fun a => a.name == name && tagMatches a.tag tag)

/-- `ippGetInteger`: the integer value at an index, or `0` when the
attribute is not integer/enum-tagged or the index is out of range. -/
def ippGetInteger (a : IppAttr) (idx : Nat) : Int :=
  if a.tag = .integer ∨ a.tag = .enumTag then
    match a.vals.get? idx with
    | some (.vInt v) => v
    | _ => 0
  else 0

/-- `ippGetBoolean`: the boolean value at an index, or `false` when the
attribute is not boolean-tagged or the index is out of range. -/
def ippGetBoolean (a : IppAttr) (idx : Nat) : Bool :=
  if a.tag = .boolean then
    match a.vals.get? idx with
    | some (.vBool b) => b
    | _ => false
  else false

/-- `ippGetString`: the string value at an index, or `none` (NULL) when
the attribute is not string-tagged or the index is out of range. -/
def ippGetString (a : IppAttr) (idx : Nat) : Option String :=
  if a.tag = .keyword ∨ a.tag = .nameTag ∨ a.tag = .nameLang ∨
      a.tag = .text ∨ a.tag = .uri ∨ a.tag = .mimetype then
    match a.vals.get? idx with
    | some (.vStr s) => some s
    | _ => none
  else none

/-- `ippGetString` with NULL read as the empty string (used where the C
code passes the result straight to a parser). -/
def ippGetStringD (a : IppAttr) (idx : Nat) : String :=
  (ippGetString a idx).getD ""

/-- `ippGetRange`: the (lower, upper) pair at an index, or `(0, 0)`
when the attribute is not range-tagged or the index is out of range. -/
def ippGetRange (a : IppAttr) (idx : Nat) : Int × Int :=
  if a.tag = .rangeTag then
    match a.vals.get? idx with
    | some (.vRange lo hi) => (lo, hi)
    | _ => (0, 0)
  else (0, 0)

/-- `ippGetResolution`: the (x, y, units) triple at an index, with
`(0, 0, false)` when the attribute is not resolution-tagged or the
index is out of range. -/
def ippGetResolution (a : IppAttr) (idx : Nat) : Int × Int × ResPerInch :=
  if a.tag = .resolution then
    match a.vals.get? idx with
    | some (.vRes x y u) => (x, y, u)
    | _ => (0, 0, false)
  else (0, 0, false)

/-- `ippGetCollection`: the collection value at an index, with `[]` for
NULL (wrong tag or out of range). -/
def ippGetCollection (a : IppAttr) (idx : Nat) : List IppAttr :=
  if a.tag = .beginCollection then
    match a.vals.get? idx with
    | some (.vCol l) => l
    | _ => []
  else []

/-- `ippFindAttribute` applied to an optional message (NULL collection
lookups yield no attribute). -/
def findAttrOpt (msg : Option (List IppAttr)) (name : String) (tag : IppTag) :
    Option IppAttr :=
  match msg with
  | none => none
  | some l => ippFindAttribute l name tag

/-- `ippContainsString`: true when some value of the (string-tagged)
attribute equals the given string; false for NULL. -/
def ippContainsString (a : Option IppAttr) (s : String) : Bool :=
  match a with
  | none => false
  | some att =>
      (att.tag == .keyword || att.tag == .nameTag || att.tag == .nameLang ||
        att.tag == .text || att.tag == .uri || att.tag == .mimetype) &&
      att.vals.any (fun v => match v with | .vStr t => t == s | _ => false)

/-- `ippContainsInteger`: true when some value of the attribute equals
(integer/enum tag) or contains (range tag) the given integer; false for
NULL. -/
def ippContainsInteger (a : Option IppAttr) (v : Int) : Bool :=
  match a with
  | none => false
  | some att =>
      if att.tag == .integer || att.tag == .enumTag then
        att.vals.any (fun w => match w with | .vInt x => x == v | _ => false)
      else if att.tag == .rangeTag then
        att.vals.any (fun w => match w with
          | .vRange lo hi => lo ≤ v && v ≤ hi
          | _ => false)
      else false

/-- IPP status codes used by the translated handlers. -/
inductive IppStatus where
  | ok
  | errorBadRequest
  | errorNotFound
  | errorNotPossible
  | errorAttributesOrValues
  | errorBusy
  | errorNotAcceptingJobs
  | errorOperationNotSupported
  deriving DecidableEq, Repr

/-- The IPP response as the handlers observe it: a status code plus the
attributes echoed into the unsupported-attributes group. -/
structure Response where
  status : IppStatus
  unsupported : List IppAttr

/-- IPP printer state values (`ipp_pstate_t`): idle = 3,
processing = 4, stopped = 5. -/
def IPP_PSTATE_IDLE : Nat := 3
def IPP_PSTATE_PROCESSING : Nat := 4
def IPP_PSTATE_STOPPED : Nat := 5

/-- IPP job state values (`ipp_jstate_t`). -/
def IPP_JSTATE_PENDING : Nat := 3
def IPP_JSTATE_HELD : Nat := 4
def IPP_JSTATE_PROCESSING : Nat := 5
def IPP_JSTATE_STOPPED : Nat := 6
def IPP_JSTATE_CANCELED : Nat := 7
def IPP_JSTATE_ABORTED : Nat := 8
def IPP_JSTATE_COMPLETED : Nat := 9

/-- A job as the printer handlers see it (`pappl_job_t`): the fields
the translated code reads or writes. -/
structure Job where
  job_id : Nat
  username : String
  job_name : String
  state : Nat
  deriving DecidableEq, Repr

/-- One media entry (`pappl_media_col_t`), restricted to the fields the
translated handlers touch (the size triple that
`_papplPrinterSetAttributes` reads and writes). -/
structure MediaCol where
  size_name : String
  size_width : Int
  size_length : Int
  deriving DecidableEq, Repr

/-- The zeroed media entry (`memset(..., 0, ...)`). -/
def zeroMediaCol : MediaCol :=
  { size_name := "", size_width := 0, size_length := 0 }

/-- Printer contact information (`pappl_contact_t`), kept abstract as a
record of strings. -/
structure Contact where
  name : String
  email : String
  telephone : String
  deriving DecidableEq, Repr

/-- `PAPPL_MAX_SOURCE`, the size of the `media_ready` array.
Modelled from the spec: the header defining the constant is not part of
this repository slice; the spec only requires a fixed bound on media
sources, and the handlers use it solely as the zero-padding length. -/
def PAPPL_MAX_SOURCE : Nat := 16

/-- Driver data (`pappl_pr_driver_data_t`): capabilities, defaults, and
callback presence flags the translated handlers read and write.
Callback function pointers are modelled by presence booleans; their
behavior enters through `Ext`. -/
structure DriverData where
  color_supported : Nat
  sides_supported : Nat
  darkness_supported : Int
  speed_supported : Int × Int
  resolutions : List (Int × Int)
  vendor : List String
  status_cb : Bool
  identify_default : Nat
  mode_configured : Nat
  tear_offset_configured : Int
  darkness_configured : Int
  media_default : MediaCol
  media_ready : List MediaCol
  orient_default : Int
  color_default : Nat
  content_default : Nat
  darkness_default : Int
  quality_default : Int
  scaling_default : Nat
  speed_default : Int
  x_default : Int
  y_default : Int
  deriving DecidableEq, Repr

/-- The printer object (`pappl_printer_t`): the fields read or written
by the translated handlers. -/
structure Printer where
  state : Nat
  state_reasons : Nat
  is_stopped : Bool
  processing_job : Option Job
  active_jobs : List Job
  completed_jobs : List Job
  all_jobs : List Job
  next_job_id : Nat
  attrs : List IppAttr
  driver_attrs : List IppAttr
  driver_data : DriverData
  contact : Contact
  geo_location : String
  location : String
  organization : String
  org_unit : String
  config_time : Int
  status_time : Int
  device_in_use : Bool
  max_active_jobs : Nat

/-- External collaborators of the handlers: driver-support keyword
parsers, media and contact importers, and the status driver callback.
These live outside this repository slice (printer-support.c, the PWG
media database, the application driver), so the theorems quantify over
them. -/
structure Ext where
  colorModeValue : String → Nat
  contentValue : String → Nat
  scalingValue : String → Nat
  sidesValue : String → Nat
  identifyActionsValue : String → Nat
  labelModeValue : String → Nat
  pwgMediaForPWG : String → Option (String × Int × Int)
  mediaColImport : List IppAttr → MediaCol → MediaCol
  contactImport : List IppAttr → Contact → Contact
  statusCbFn : Printer → Printer

/-! ## printer-state-reasons (`_papplPrinterCopyState`) -/

/-- The `pappl_preason_t` bits with their keyword strings, in the order
of the `for (bit = PAPPL_PREASON_OTHER; bit <= PAPPL_PREASON_TONER_LOW;
bit *= 2)` loop.  Modelled from the spec: the enumeration and
`_papplPrinterReasonString` live in headers/support code outside this
repository slice; the keywords are the standard IPP
printer-state-reasons keywords the spec's bitset refers to. -/
def preasonTable : List (Nat × String) :=
  [ (0x0001, "other"),
    (0x0002, "cover-open"),
    (0x0004, "input-tray-missing"),
    (0x0008, "marker-supply-empty"),
    (0x0010, "marker-supply-low"),
    (0x0020, "marker-waste-almost-full"),
    (0x0040, "marker-waste-full"),
    (0x0080, "media-empty"),
    (0x0100, "media-jam"),
    (0x0200, "media-low"),
    (0x0400, "media-needed"),
    (0x0800, "offline"),
    (0x1000, "spool-area-full"),
    (0x2000, "toner-empty"),
    (0x4000, "toner-low") ]

/-- The keyword for each reason bit set in the bitset, in bit order
(the loop body of `_papplPrinterCopyState`). -/
def preasonStrings (reasons : Nat) : List String :=
  preasonTable.filterMap (fun p =>
    if reasons &&& p.1 ≠ 0 then some p.2 else none)

/-- The value list of the printer-state-reasons attribute produced by
`_papplPrinterCopyState` (printer-ipp.c:585-617).  When the bitset is
nonempty but contributes no keyword, the attribute is never created and
the trailing `ippSetString` calls are no-ops on a NULL attribute, so
the special values are dropped. -/
def printerStateReasonsList (printer : Printer) : List String :=
  if printer.state_reasons = 0 then
    if printer.is_stopped then ["moving-to-paused"]
    else if printer.state = IPP_PSTATE_STOPPED then ["paused"]
    else ["none"]
  else
    let base := preasonStrings printer.state_reasons
    if base.isEmpty then base
    else
      base ++
        (if printer.is_stopped then ["moving-to-paused"]
         else if printer.state = IPP_PSTATE_STOPPED then ["paused"]
         else [])

/-- `_papplPrinterCopyState`: the printer-state attributes appended to
the response, filtered by the requested-attributes set (`none` models a
NULL `ra`, matching everything). -/
def _papplPrinterCopyState (printer : Printer) (ra : Option (List String)) :
    List IppAttr :=
  let want := fun (n : String) => match ra with
    | none => true
    | some l => l.contains n
  (if want "printer-state" then
    [IppAttr.mk .printerGroup .enumTag "printer-state"
      [IppVal.vInt (Int.ofNat printer.state)]]
   else []) ++
  (if want "printer-state-message" then
    [IppAttr.mk .printerGroup .text "printer-state-message"
      [IppVal.vStr (if printer.state = IPP_PSTATE_IDLE then "Idle."
        else if printer.state = IPP_PSTATE_PROCESSING then "Printing."
        else "Stopped.")]]
   else []) ++
  (if want "printer-state-reasons" then
    if (printerStateReasonsList printer).isEmpty then []
    else
      [IppAttr.mk .printerGroup .keyword "printer-state-reasons"
        ((printerStateReasonsList printer).map IppVal.vStr)]
   else [])

/-! ## Status refresh in Get-Printer-Attributes -/

/-- The status-refresh prologue of `ipp_get_printer_attributes`
(printer-ipp.c:1248-1253): invoke the status driver callback only when
the device is not in use, no job is processing, strictly more than one
second has elapsed since the last refresh, and the driver has a status
callback; afterwards refresh the status timestamp.  Returns the updated
printer and whether the callback ran. -/
def getPrinterAttributesStatusRefresh (ext : Ext) (now : Int)
    (printer : Printer) : Printer × Bool :=
  if !printer.device_in_use && printer.processing_job.isNone &&
      now - printer.status_time > 1 && printer.driver_data.status_cb then
    let p := ext.statusCbFn printer
    ({ p with status_time := now }, true)
  else
    (printer, false)

/-! ## copies-supported in `_papplPrinterCopyAttributes` -/

/-- The document-format string of a request, as
`ipp_get_printer_attributes` extracts it (printer-ipp.c:1262):
`ippGetString(ippFindAttribute(request, "document-format",
IPP_TAG_MIMETYPE), 0, NULL)`. -/
def requestDocumentFormat (request : List IppAttr) : Option String :=
  match ippFindAttribute request "document-format" .mimetype with
  | none => none
  | some a => ippGetString a 0

/-- The copies-supported range added by `_papplPrinterCopyAttributes`
(printer-ipp.c:75-83): `(1, 1)` for the streaming raster formats,
`(1, 999)` otherwise; `none` when the requested-attributes set does not
ask for it. -/
def copiesSupportedRange (ra : Option (List String))
    (format : Option String) : Option (Int × Int) :=
  if ra.isNone || (ra.getD []).contains "copies-supported" then
    some
      (match format with
       | some f =>
           if f = "image/pwg-raster" ∨ f = "image/urf" then (1, 1)
           else (1, 999)
       | none => (1, 999))
  else
    none

/-! ## Cancel-Current-Job -/

/-- `papplJobCancel` as Cancel-Current-Job invokes it on the current
job.  Modelled from the spec: job.c is not part of this repository
slice; per the spec's job state machine, a non-terminal job transitions
to `canceled` on request (cooperatively for a processing job, which the
shallow embedding collapses to the resulting terminal state).  Every
list slot holding the job is updated by id. -/
def papplJobCancel (printer : Printer) (job : Job) : Printer :=
  let mark := fun (j : Job) =>
    if j.job_id = job.job_id then { j with state := IPP_JSTATE_CANCELED }
    else j
  { printer with
      processing_job := printer.processing_job.map mark,
      active_jobs := printer.active_jobs.map mark,
      completed_jobs := printer.completed_jobs.map mark,
      all_jobs := printer.all_jobs.map mark }

/-- `ipp_cancel_current_job` (printer-ipp.c:1008-1045): no processing
job yields client-error-not-found; a terminal processing job yields
client-error-not-possible; otherwise the job is canceled and the status
is successful-ok. -/
def ipp_cancel_current_job (printer : Printer) : Printer × Response :=
  match printer.processing_job with
  | none => (printer, { status := .errorNotFound, unsupported := [] })
  | some job =>
      if job.state = IPP_JSTATE_CANCELED then
        (printer, { status := .errorNotPossible, unsupported := [] })
      else if job.state = IPP_JSTATE_ABORTED then
        (printer, { status := .errorNotPossible, unsupported := [] })
      else if job.state = IPP_JSTATE_COMPLETED then
        (printer, { status := .errorNotPossible, unsupported := [] })
      else
        (papplJobCancel printer job, { status := .ok, unsupported := [] })

/-! ## Admission (`valid_job_attributes`) -/

/-- The state `valid_job_attributes` threads through its checks: the
request (which the job-name check mutates), the response, and the
validity flag. -/
structure VJState where
  request : List IppAttr
  response : Response
  valid : Bool

/-- `papplClientRespondIPPUnsupported`.  Modelled from the spec: the
helper lives in client code outside this repository slice; per the
spec, the offending attribute is echoed (tag and values preserved) into
the unsupported-attributes group and the response status becomes
client-error-attributes-or-values-not-supported.  The caller also
clears its validity flag. -/
def flagUnsupported (st : VJState) (a : IppAttr) : VJState :=
  { st with
      response :=
        { status := .errorAttributesOrValues,
          unsupported :=
            st.response.unsupported ++ [a.setGroup .unsupportedGroup] },
      valid := false }

/-- The shape shared by most job-template checks: find the attribute by
name with IPP_TAG_ZERO; when present and bad, echo it as unsupported. -/
def checkAttr (name : String) (bad : IppAttr → Bool) (st : VJState) :
    VJState :=
  match ippFindAttribute st.request name .zero with
  | none => st
  | some a => if bad a then flagUnsupported st a else st

/-- copies (printer-ipp.c:1461): single integer in 1..999. -/
def badCopies (a : IppAttr) : Bool :=
  decide (ippGetCount a ≠ 1 ∨ a.tag ≠ IppTag.integer ∨
    ippGetInteger a 0 < 1 ∨ ippGetInteger a 0 > 999)

/-- ipp-attribute-fidelity (printer-ipp.c:1470). -/
def badFidelity (a : IppAttr) : Bool :=
  decide (ippGetCount a ≠ 1 ∨ a.tag ≠ IppTag.boolean)

/-- job-hold-until (printer-ipp.c:1479). -/
def badJobHoldUntil (a : IppAttr) : Bool :=
  decide (ippGetCount a ≠ 1 ∨
    (a.tag ≠ IppTag.nameTag ∧ a.tag ≠ IppTag.nameLang ∧
      a.tag ≠ IppTag.keyword) ∨
    ippGetStringD a 0 ≠ "no-hold")

/-- job-impressions (printer-ipp.c:1488). -/
def badJobImpressions (a : IppAttr) : Bool :=
  decide (ippGetCount a ≠ 1 ∨ a.tag ≠ IppTag.integer ∨ ippGetInteger a 0 < 0)

/-- job-name value check (printer-ipp.c:1497). -/
def badJobName (a : IppAttr) : Bool :=
  decide (ippGetCount a ≠ 1 ∨
    (a.tag ≠ IppTag.nameTag ∧ a.tag ≠ IppTag.nameLang))

/-- job-priority (printer-ipp.c:1510). -/
def badJobPriority (a : IppAttr) : Bool :=
  decide (ippGetCount a ≠ 1 ∨ a.tag ≠ IppTag.integer ∨
    ippGetInteger a 0 < 1 ∨ ippGetInteger a 0 > 100)

/-- job-sheets (printer-ipp.c:1519). -/
def badJobSheets (a : IppAttr) : Bool :=
  decide (ippGetCount a ≠ 1 ∨
    (a.tag ≠ IppTag.nameTag ∧ a.tag ≠ IppTag.nameLang ∧
      a.tag ≠ IppTag.keyword) ∨
    ippGetStringD a 0 ≠ "none")

/-- media (printer-ipp.c:1526-1543): syntax check, then membership in
the driver's media-supported list. -/
def badMedia (printer : Printer) (a : IppAttr) : Bool :=
  if decide (ippGetCount a ≠ 1 ∨
      (a.tag ≠ IppTag.nameTag ∧ a.tag ≠ IppTag.nameLang ∧
        a.tag ≠ IppTag.keyword)) then
    true
  else
    ! ippContainsString
        (ippFindAttribute printer.driver_attrs "media-supported" .keyword)
        (ippGetStringD a 0)

/-- media-col member checks (printer-ipp.c:1561-1621), applied to the
state left by the count/tag check. -/
def mediaColBody (printer : Printer) (a : IppAttr) (st1 : VJState) :
    VJState :=
  let col := ippGetCollection a 0
  match ippFindAttribute col "media-size-name" .zero with
      | some member =>
          if decide (ippGetCount member ≠ 1 ∨
              (member.tag ≠ IppTag.nameTag ∧ member.tag ≠ IppTag.nameLang ∧
                member.tag ≠ IppTag.keyword)) then
            flagUnsupported st1 a
          else if ! ippContainsString
              (ippFindAttribute printer.driver_attrs "media-supported"
                .keyword)
              (ippGetStringD member 0) then
            flagUnsupported st1 a
          else st1
      | none =>
          match ippFindAttribute col "media-size" .beginCollection with
          | some member =>
              if ippGetCount member ≠ 1 then
                flagUnsupported st1 a
              else
                let size := ippGetCollection member 0
                match ippFindAttribute size "x-dimension" .integer,
                    ippFindAttribute size "y-dimension" .integer with
                | some x_dim, some y_dim =>
                    if ippGetCount x_dim ≠ 1 ∨ ippGetCount y_dim ≠ 1 then
                      flagUnsupported st1 a
                    else
                      let x_value := ippGetInteger x_dim 0
                      let y_value := ippGetInteger y_dim 0
                      let supported :=
                        ippFindAttribute printer.driver_attrs
                          "media-size-supported" .beginCollection
                      let found :=
                        match supported with
                        | none => false
                        | some s =>
                            (List.range (ippGetCount s)).any (fun i =>
                              let sz := ippGetCollection s i
                              ippContainsInteger
                                (ippFindAttribute sz "x-dimension" .zero)
                                x_value &&
                              ippContainsInteger
                                (ippFindAttribute sz "y-dimension" .zero)
                                y_value)
                      if found then st1 else flagUnsupported st1 a
                | _, _ => flagUnsupported st1 a
          | none => st1

/-- media-col (printer-ipp.c:1545-1622).  The C code flags the count
and tag first, then inspects the collection members regardless, so a
malformed media-col may be echoed twice, which the translation keeps. -/
def mediaColStep (printer : Printer) (st : VJState) : VJState :=
  match ippFindAttribute st.request "media-col" .zero with
  | none => st
  | some a =>
      mediaColBody printer a
        (if decide (ippGetCount a ≠ 1 ∨ a.tag ≠ IppTag.beginCollection) then
          flagUnsupported st a
        else st)

/-- Replace the group tag of the first attribute with the given name
(the `ippSetGroupTag` call on the found attribute). -/
def setGroupByName (msg : List IppAttr) (name : String) (g : IppTag) :
    List IppAttr :=
  match msg with
  | [] => []
  | a :: rest =>
      if a.name == name then a.setGroup g :: rest
      else a :: setGroupByName rest name g

/-- job-name handling (printer-ipp.c:1495-1506): check the value when
present and move the attribute to the job group; otherwise insert the
default Untitled job-name into the job group. -/
def jobNameStep (st : VJState) : VJState :=
  match ippFindAttribute st.request "job-name" .zero with
  | some a =>
      let st1 := if badJobName a then flagUnsupported st a else st
      { st1 with request := setGroupByName st1.request "job-name" .jobGroup }
  | none =>
      { st with
          request :=
            st.request ++
              [IppAttr.mk .jobGroup .nameTag "job-name"
                [IppVal.vStr "Untitled"]] }

/-- multiple-document-handling (printer-ipp.c:1626). -/
def badMultipleDocumentHandling (a : IppAttr) : Bool :=
  decide (ippGetCount a ≠ 1 ∨ a.tag ≠ IppTag.keyword ∨
    (ippGetStringD a 0 ≠ "separate-documents-uncollated-copies" ∧
      ippGetStringD a 0 ≠ "separate-documents-collated-copies"))

/-- orientation-requested (printer-ipp.c:1635): enum in
portrait(3)..none(7). -/
def badOrientationRequested (a : IppAttr) : Bool :=
  decide (ippGetCount a ≠ 1 ∨ a.tag ≠ IppTag.enumTag ∨
    ippGetInteger a 0 < 3 ∨ ippGetInteger a 0 > 7)

/-- `ippGetBoolean` through an optional attribute (NULL yields 0). -/
def ippGetBooleanOpt (a : Option IppAttr) (idx : Nat) : Bool :=
  match a with
  | none => false
  | some att => ippGetBoolean att idx

/-- page-ranges (printer-ipp.c:1642-1652): rejected when the printer
does not support page ranges, or on a malformed single range. -/
def badPageRanges (printer : Printer) (a : IppAttr) : Bool :=
  let r := ippGetRange a 0
  decide (ippGetBooleanOpt
      (ippFindAttribute printer.attrs "page-ranges-supported" .boolean) 0
      = false ∨
    a.tag ≠ IppTag.rangeTag ∨ ippGetCount a ≠ 1 ∨ r.1 < 1 ∨ r.2 < r.1)

/-- print-color-mode (printer-ipp.c:1654-1664). -/
def badPrintColorMode (ext : Ext) (printer : Printer) (a : IppAttr) : Bool :=
  let value := ext.colorModeValue (ippGetStringD a 0)
  decide (ippGetCount a ≠ 1 ∨ a.tag ≠ IppTag.keyword ∨
    value &&& printer.driver_data.color_supported = 0)

/-- print-content-optimize (printer-ipp.c:1666-1673). -/
def badPrintContentOptimize (ext : Ext) (a : IppAttr) : Bool :=
  decide (ippGetCount a ≠ 1 ∨ a.tag ≠ IppTag.keyword ∨
    ext.contentValue (ippGetStringD a 0) = 0)

/-- print-darkness (printer-ipp.c:1675-1684). -/
def badPrintDarkness (printer : Printer) (a : IppAttr) : Bool :=
  let value := ippGetInteger a 0
  decide (ippGetCount a ≠ 1 ∨ a.tag ≠ IppTag.integer ∨
    value < -100 ∨ value > 100 ∨
    printer.driver_data.darkness_supported = 0)

/-- print-quality (printer-ipp.c:1686-1693): enum draft(3)..high(5). -/
def badPrintQuality (a : IppAttr) : Bool :=
  decide (ippGetCount a ≠ 1 ∨ a.tag ≠ IppTag.enumTag ∨
    ippGetInteger a 0 < 3 ∨ ippGetInteger a 0 > 5)

/-- print-scaling (printer-ipp.c:1695-1702). -/
def badPrintScaling (ext : Ext) (a : IppAttr) : Bool :=
  decide (ippGetCount a ≠ 1 ∨ a.tag ≠ IppTag.keyword ∨
    ext.scalingValue (ippGetStringD a 0) = 0)

/-- print-speed (printer-ipp.c:1704-1713). -/
def badPrintSpeed (printer : Printer) (a : IppAttr) : Bool :=
  let value := ippGetInteger a 0
  decide (ippGetCount a ≠ 1 ∨ a.tag ≠ IppTag.integer ∨
    value < printer.driver_data.speed_supported.1 ∨
    value > printer.driver_data.speed_supported.2 ∨
    printer.driver_data.speed_supported.2 = 0)

/-- printer-resolution (printer-ipp.c:1715-1742): syntax check, then
membership in the driver's resolution pairs. -/
def badPrinterResolution (printer : Printer) (a : IppAttr) : Bool :=
  let r := ippGetResolution a 0
  if decide (ippGetCount a ≠ 1 ∨ a.tag ≠ IppTag.resolution ∨
      r.2.2 = false) then
    true
  else
    ! printer.driver_data.resolutions.any (fun p =>
        p.1 == r.1 && p.2 == r.2.1)

/-- sides (printer-ipp.c:1744-1754). -/
def badSides (ext : Ext) (printer : Printer) (a : IppAttr) : Bool :=
  let value := ext.sidesValue (ippGetStringD a 0)
  decide (ippGetCount a ≠ 1 ∨ a.tag ≠ IppTag.keyword ∨
    value &&& printer.driver_data.sides_supported = 0)

/-- `_papplJobValidateDocumentAttributes`.  Modelled from the spec: the
operation/document attribute check lives in job.c outside this
repository slice.  Per the spec, an admission failure there yields the
attributes-or-values-not-supported status; the attributes it can echo
are document-description operation attributes, none of which is a
job-template attribute, so the model keeps the unsupported group
unchanged and records the outcome in the validity flag. -/
def documentAttributesStep (doc_valid : Bool) (st : VJState) : VJState :=
  if doc_valid then st
  else
    { st with
        response := { st.response with status := .errorAttributesOrValues },
        valid := false }

/-- The job-template checks of `valid_job_attributes` that follow the
copies check, in source order. -/
def jobTemplateTail (ext : Ext) (printer : Printer) :
    List (VJState → VJState) :=
  [ checkAttr "ipp-attribute-fidelity" badFidelity,
    checkAttr "job-hold-until" badJobHoldUntil,
    checkAttr "job-impressions" badJobImpressions,
    jobNameStep,
    checkAttr "job-priority" badJobPriority,
    checkAttr "job-sheets" badJobSheets,
    checkAttr "media" (badMedia printer),
    mediaColStep printer,
    checkAttr "multiple-document-handling" badMultipleDocumentHandling,
    checkAttr "orientation-requested" badOrientationRequested,
    checkAttr "page-ranges" (badPageRanges printer),
    checkAttr "print-color-mode" (badPrintColorMode ext printer),
    checkAttr "print-content-optimize" (badPrintContentOptimize ext),
    checkAttr "print-darkness" (badPrintDarkness printer),
    checkAttr "print-quality" badPrintQuality,
    checkAttr "print-scaling" (badPrintScaling ext),
    checkAttr "print-speed" (badPrintSpeed printer),
    checkAttr "printer-resolution" (badPrinterResolution printer),
    checkAttr "sides" (badSides ext printer) ]

/-- The job-template checks of `valid_job_attributes`, in source
order: the copies check (printer-ipp.c:1459-1466) comes first. -/
def jobTemplateChecks (ext : Ext) (printer : Printer) :
    List (VJState → VJState) :=
  checkAttr "copies" badCopies :: jobTemplateTail ext printer

/-- Run a list of checks left to right. -/
def runSteps (fs : List (VJState → VJState)) (st : VJState) : VJState :=
  fs.foldl (fun s f => f s) st

/-- `valid_job_attributes` (printer-ipp.c:1435-1759): reject
immediately with server-error-not-accepting-jobs when a shutdown is
pending, otherwise run the document-attribute check followed by every
job-template check. -/
def valid_job_attributes (ext : Ext) (printer : Printer)
    (shutdown_time : Int) (doc_valid : Bool) (request : List IppAttr) :
    VJState :=
  if shutdown_time ≠ 0 then
    { request := request,
      response := { status := .errorNotAcceptingJobs, unsupported := [] },
      valid := false }
  else
    let st0 : VJState :=
      { request := request,
        response := { status := .ok, unsupported := [] },
        valid := true }
    runSteps (jobTemplateChecks ext printer)
      (documentAttributesStep doc_valid st0)

/-! ## Job creation and the Print-Job / Create-Job / Validate-Job
handlers -/

/-- `create_job` (printer-ipp.c:978-1001) plus `_papplJobCreate`.  The
username and job-name extraction is translated from `create_job`; the
creation itself is modelled from the spec (job.c is not in this
repository slice): a job id is allocated from `next_job_id`, the job is
appended to `active_jobs` and `all_jobs`, and the printer's
`config_time` is bumped; `none` (the busy case) when a concurrent job
holds the available slots. -/
def create_job (client_username : String) (printer : Printer)
    (request : List IppAttr) (now : Int) : Option (Printer × Job) :=
  let username :=
    if client_username ≠ "" then client_username
    else
      match ippFindAttribute request "requesting-user-name" .nameTag with
      | some attr => ippGetStringD attr 0
      | none => "guest"
  let job_name :=
    match ippFindAttribute request "job-name" .nameTag with
    | some attr => ippGetStringD attr 0
    | none => "Untitled"
  if printer.max_active_jobs > 0 ∧
      printer.active_jobs.length ≥ printer.max_active_jobs then
    none
  else
    let job : Job :=
      { job_id := printer.next_job_id, username := username,
        job_name := job_name, state := IPP_JSTATE_PENDING }
    some
      ({ printer with
          next_job_id := printer.next_job_id + 1,
          active_jobs := printer.active_jobs ++ [job],
          all_jobs := printer.all_jobs ++ [job],
          config_time := now },
        job)

/-- The observable outcome of a printer operation handler. -/
structure HandlerResult where
  printer : Printer
  response : Response

/-- `ipp_print_job` (printer-ipp.c:1335-1364): reject with
client-error-bad-request when the request carries no document data;
otherwise validate, create the job, and hand off to the document
pipeline (outside this slice). -/
def ipp_print_job (ext : Ext) (printer : Printer) (shutdown_time : Int)
    (doc_valid : Bool) (client_username : String)
    (have_document_data : Bool) (now : Int) (request : List IppAttr) :
    HandlerResult :=
  if !have_document_data then
    { printer := printer,
      response := { status := .errorBadRequest, unsupported := [] } }
  else
    let v := valid_job_attributes ext printer shutdown_time doc_valid request
    if !v.valid then
      { printer := printer, response := v.response }
    else
      match create_job client_username printer v.request now with
      | none =>
          { printer := printer,
            response := { status := .errorBusy, unsupported := [] } }
      | some (p, _job) =>
          { printer := p,
            response := { status := .ok,
                          unsupported := v.response.unsupported } }

/-- `ipp_create_job` (printer-ipp.c:1076-1114): reject with
client-error-bad-request when document data follows the request;
otherwise validate and create the job without a body. -/
def ipp_create_job (ext : Ext) (printer : Printer) (shutdown_time : Int)
    (doc_valid : Bool) (client_username : String)
    (have_document_data : Bool) (now : Int) (request : List IppAttr) :
    HandlerResult :=
  if have_document_data then
    { printer := printer,
      response := { status := .errorBadRequest, unsupported := [] } }
  else
    let v := valid_job_attributes ext printer shutdown_time doc_valid request
    if !v.valid then
      { printer := printer, response := v.response }
    else
      match create_job client_username printer v.request now with
      | none =>
          { printer := printer,
            response := { status := .errorBusy, unsupported := [] } }
      | some (p, _job) =>
          { printer := p,
            response := { status := .ok,
                          unsupported := v.response.unsupported } }

/-- `ipp_validate_job` (printer-ipp.c:1419-1425): run admission and
respond; no job is ever created. -/
def ipp_validate_job (ext : Ext) (printer : Printer) (shutdown_time : Int)
    (doc_valid : Bool) (request : List IppAttr) : HandlerResult :=
  let v := valid_job_attributes ext printer shutdown_time doc_valid request
  if v.valid then
    { printer := printer,
      response := { status := .ok, unsupported := v.response.unsupported } }
  else
    { printer := printer, response := v.response }

/-! ## Set-Printer-Attributes (`_papplPrinterSetAttributes`) -/

/-- The whitelist of settable printer attributes (`pattrs`,
printer-ipp.c:754-775): name, required value tag, maximum value
count. -/
def settablePrinterAttrs : List (String × IppTag × Nat) :=
  [ ("label-mode-configured", .keyword, 1),
    ("label-tear-off-configured", .integer, 1),
    ("media-col-default", .beginCollection, 1),
    ("media-col-ready", .beginCollection, PAPPL_MAX_SOURCE),
    ("media-default", .keyword, 1),
    ("media-ready", .keyword, PAPPL_MAX_SOURCE),
    ("orientation-requested-default", .enumTag, 1),
    ("print-color-mode-default", .keyword, 1),
    ("print-content-optimize-default", .keyword, 1),
    ("print-darkness-default", .integer, 1),
    ("print-quality-default", .enumTag, 1),
    ("print-speed-default", .integer, 1),
    ("printer-contact-col", .beginCollection, 1),
    ("printer-darkness-configured", .integer, 1),
    ("printer-geo-location", .uri, 1),
    ("printer-location", .text, 1),
    ("printer-organization", .text, 1),
    ("printer-organizational-unit", .text, 1),
    ("printer-resolution-default", .resolution, 1) ]

/-- Names exempted from the preflight on Create-Printer
(printer-ipp.c:795). -/
def createPrinterExemptNames : List String :=
  ["printer-device-id", "printer-name", "smi2699-device-uri",
   "smi2699-device-command"]

/-- Echo an attribute as unsupported into a bare response (the
`papplClientRespondIPPUnsupported` effect; see `flagUnsupported`). -/
def respFlagUnsupported (resp : Response) (a : IppAttr) : Response :=
  { status := .errorAttributesOrValues,
    unsupported := resp.unsupported ++ [a.setGroup .unsupportedGroup] }

/-- One iteration of the preflight loop of `_papplPrinterSetAttributes`
(printer-ipp.c:781-820): skip operation-group and nameless attributes;
flag non-printer groups; on Create-Printer skip the exempt names; then
accept whitelist matches (name, tag, count bound) and vendor
xxx-default names, flagging everything else. -/
def preflightOne (create_printer : Bool) (printer : Printer)
    (resp : Response) (a : IppAttr) : Response :=
  if a.group = .operationGroup ∨ a.name = "" then resp
  else if a.group ≠ .printerGroup then respFlagUnsupported resp a
  else if create_printer ∧ createPrinterExemptNames.contains a.name then resp
  else if settablePrinterAttrs.any (fun p =>
      a.name == p.1 && a.tag == p.2.1 && ippGetCount a ≤ p.2.2) then
    resp
  else if printer.driver_data.vendor.any (fun v =>
      a.name == v ++ "-default") then
    resp
  else respFlagUnsupported resp a

/-- Whether one attribute fails the preflight (the condition under
which `preflightOne` flags it). -/
def preflightRejects (create_printer : Bool) (printer : Printer)
    (a : IppAttr) : Bool :=
  if a.group = .operationGroup ∨ a.name = "" then false
  else if a.group ≠ .printerGroup then true
  else if create_printer ∧ createPrinterExemptNames.contains a.name then
    false
  else if settablePrinterAttrs.any (fun p =>
      a.name == p.1 && a.tag == p.2.1 && ippGetCount a ≤ p.2.2) then
    false
  else if printer.driver_data.vendor.any (fun v =>
      a.name == v ++ "-default") then
    false
  else true

/-- Delete the first attribute with the given name
(`ippDeleteAttribute` of an `ippFindAttribute` result). -/
def deleteFirstAttr (msg : List IppAttr) (name : String) : List IppAttr :=
  match msg with
  | [] => []
  | a :: rest =>
      if a.name == name then rest else a :: deleteFirstAttr rest name

/-- One iteration of the apply loop of `_papplPrinterSetAttributes`
(printer-ipp.c:828-961): update the printer field selected by the
attribute name; unrecognized names are copied into `driver_attrs` as
vendor defaults (replacing any previous attribute of that name). -/
def applyOne (ext : Ext) (printer : Printer) (a : IppAttr) : Printer :=
  if a.group = .operationGroup ∨ a.name = "" then printer
  else if a.name = "identify-actions-default" then
    { printer with
        driver_data.identify_default :=
          (List.range (ippGetCount a)).foldl
            (fun acc i => acc ||| ext.identifyActionsValue (ippGetStringD a i))
            0 }
  else if a.name = "label-mode-configured" then
    { printer with
        driver_data.mode_configured := ext.labelModeValue (ippGetStringD a 0) }
  else if a.name = "label-tear-offset-configured" then
    { printer with driver_data.tear_offset_configured := ippGetInteger a 0 }
  else if a.name = "media-col-default" then
    { printer with
        driver_data.media_default :=
          ext.mediaColImport (ippGetCollection a 0)
            printer.driver_data.media_default }
  else if a.name = "media-col-ready" then
    { printer with
        driver_data.media_ready :=
          (List.range PAPPL_MAX_SOURCE).map (fun i =>
            if i < ippGetCount a then
              ext.mediaColImport (ippGetCollection a i)
                (printer.driver_data.media_ready.getD i zeroMediaCol)
            else zeroMediaCol) }
  else if a.name = "media-default" then
    match ext.pwgMediaForPWG (ippGetStringD a 0) with
    | some (pwg, w, l) =>
        { printer with
            driver_data.media_default :=
              { size_name := pwg, size_width := w, size_length := l } }
    | none => printer
  else if a.name = "media-ready" then
    { printer with
        driver_data.media_ready :=
          (List.range PAPPL_MAX_SOURCE).map (fun i =>
            if i < ippGetCount a then
              match ext.pwgMediaForPWG (ippGetStringD a i) with
              | some (pwg, w, l) =>
                  { size_name := pwg, size_width := w, size_length := l }
              | none => printer.driver_data.media_ready.getD i zeroMediaCol
            else zeroMediaCol) }
  else if a.name = "orientation-requested-default" then
    { printer with driver_data.orient_default := ippGetInteger a 0 }
  else if a.name = "print-color-mode-default" then
    { printer with
        driver_data.color_default := ext.colorModeValue (ippGetStringD a 0) }
  else if a.name = "print-content-optimize-default" then
    { printer with
        driver_data.content_default := ext.contentValue (ippGetStringD a 0) }
  else if a.name = "print-darkness-default" then
    { printer with driver_data.darkness_default := ippGetInteger a 0 }
  else if a.name = "print-quality-default" then
    { printer with driver_data.quality_default := ippGetInteger a 0 }
  else if a.name = "print-scaling-default" then
    { printer with
        driver_data.scaling_default := ext.scalingValue (ippGetStringD a 0) }
  else if a.name = "print-speed-default" then
    { printer with driver_data.speed_default := ippGetInteger a 0 }
  else if a.name = "printer-contact-col" then
    { printer with
        contact := ext.contactImport (ippGetCollection a 0) printer.contact }
  else if a.name = "printer-darkness-configured" then
    { printer with driver_data.darkness_configured := ippGetInteger a 0 }
  else if a.name = "printer-geo-location" then
    { printer with geo_location := ippGetStringD a 0 }
  else if a.name = "printer-location" then
    { printer with location := ippGetStringD a 0 }
  else if a.name = "printer-organization" then
    { printer with organization := ippGetStringD a 0 }
  else if a.name = "printer-organization-unit" then
    { printer with org_unit := ippGetStringD a 0 }
  else if a.name = "printer-resolution-default" then
    let r := ippGetResolution a 0
    { printer with
        driver_data.x_default := r.1,
        driver_data.y_default := r.2.1 }
  else
    { printer with
        driver_attrs := deleteFirstAttr printer.driver_attrs a.name ++ [a] }

/-- The outcome of `_papplPrinterSetAttributes`: the boolean the C
function returns, the resulting printer, whether
`_papplSystemConfigChanged` was invoked, and the response. -/
structure SetAttributesResult where
  ok : Bool
  printer : Printer
  notified : Bool
  response : Response

/-- The response left by the preflight loop of
`_papplPrinterSetAttributes` (printer-ipp.c:781-820). -/
def preflightResponse (create_printer : Bool) (printer : Printer)
    (request : List IppAttr) : Response :=
  request.foldl (preflightOne create_printer printer)
    { status := .ok, unsupported := [] }

/-- `_papplPrinterSetAttributes` (printer-ipp.c:741-970): preflight
every request attribute; when any was flagged (the response status is
no longer OK) return failure without touching the printer; otherwise
apply all changes, set `config_time`, and notify the system of the
configuration change. -/
def _papplPrinterSetAttributes (ext : Ext) (create_printer : Bool)
    (now : Int) (printer : Printer) (request : List IppAttr) :
    SetAttributesResult :=
  if (preflightResponse create_printer printer request).status ≠ .ok then
    { ok := false, printer := printer, notified := false,
      response := preflightResponse create_printer printer request }
  else
    { ok := true,
      printer :=
        { request.foldl (applyOne ext) printer with config_time := now },
      notified := true,
      response := preflightResponse create_printer printer request }

/-! ## Get-Jobs (`ipp_get_jobs`) -/

/-- The observable outcome of Get-Jobs: the response status, the
unsupported-attributes group, and the ids of the jobs whose attributes
were copied into the response, in response order. -/
structure GetJobsResult where
  status : IppStatus
  unsupported : List IppAttr
  jobs : List Nat

/-- `strcasecmp(a, b) != 0`, the case-insensitive inequality used by
the Get-Jobs user filter. -/
def strcasediff (a b : String) : Bool :=
  a.toLower != b.toLower

/-- The which-jobs string of a Get-Jobs request
(printer-ipp.c:1139-1143). -/
def requestWhichJobs (request : List IppAttr) : Option String :=
  match ippFindAttribute request "which-jobs" .keyword with
  | some attr => ippGetString attr 0
  | none => none

/-- `ipp_get_jobs` (printer-ipp.c:1121-1232): select the job list from
which-jobs (unknown values are rejected as unsupported), read the
limit, resolve the my-jobs/requesting-user-name pair (my-jobs without a
user name is a bad request), then walk the first `limit` jobs of the
list and copy those matching the state comparison and user filter. -/
def ipp_get_jobs (printer : Printer) (request : List IppAttr) :
    GetJobsResult :=
  let which_jobs := requestWhichJobs request
  let selection : Option (Int × Nat × List Job) :=
    if which_jobs = none ∨ which_jobs = some "not-completed" then
      some (-1, IPP_JSTATE_STOPPED, printer.active_jobs)
    else if which_jobs = some "completed" then
      some (1, IPP_JSTATE_CANCELED, printer.completed_jobs)
    else if which_jobs = some "all" then
      some (1, IPP_JSTATE_PENDING, printer.all_jobs)
    else none
  match selection with
  | none =>
      { status := .errorAttributesOrValues,
        unsupported :=
          [IppAttr.mk .unsupportedGroup .keyword "which-jobs"
            [IppVal.vStr (which_jobs.getD "")]],
        jobs := [] }
  | some (job_comparison, job_state, list) =>
      let limit : Int :=
        match ippFindAttribute request "limit" .integer with
        | some attr => ippGetInteger attr 0
        | none => 0
      let username? : Option (Option String) :=
        match ippFindAttribute request "my-jobs" .boolean with
        | some attr =>
            if ippGetBoolean attr 0 then
              match ippFindAttribute request "requesting-user-name"
                  .nameTag with
              | none => none
              | some uattr => some (some (ippGetStringD uattr 0))
            else some none
        | none => some none
      match username? with
      | none =>
          { status := .errorBadRequest, unsupported := [], jobs := [] }
      | some username =>
          let count := list.length
          let bound : Nat :=
            if limit ≤ 0 ∨ limit > (count : Int) then count
            else limit.toNat
          let matched := (list.take bound).filter (fun job =>
            ! ((job_comparison < 0 && job.state > job_state) ||
               (job_comparison > 0 && job.state < job_state) ||
               (match username with
                | some u => strcasediff u job.username
                | none => false)))
          { status := .ok, unsupported := [],
            jobs := matched.map (fun j => j.job_id) }

/-! ## Concrete sample objects, used to instantiate the theorems -/

/-- Driver data of a minimal test printer. -/
def sampleDriverData : DriverData :=
  { color_supported := 0, sides_supported := 0, darkness_supported := 0,
    speed_supported := (0, 0), resolutions := [], vendor := [],
    status_cb := false, identify_default := 0, mode_configured := 0,
    tear_offset_configured := 0, darkness_configured := 0,
    media_default := zeroMediaCol, media_ready := [], orient_default := 0,
    color_default := 0, content_default := 0, darkness_default := 0,
    quality_default := 0, scaling_default := 0, speed_default := 0,
    x_default := 0, y_default := 0 }

/-- A minimal idle printer with no jobs. -/
def samplePrinter : Printer :=
  { state := IPP_PSTATE_IDLE, state_reasons := 0, is_stopped := false,
    processing_job := none, active_jobs := [], completed_jobs := [],
    all_jobs := [], next_job_id := 1, attrs := [], driver_attrs := [],
    driver_data := sampleDriverData,
    contact := { name := "", email := "", telephone := "" },
    geo_location := "", location := "", organization := "", org_unit := "",
    config_time := 0, status_time := 0, device_in_use := false,
    max_active_jobs := 0 }

/-- Trivial external collaborators. -/
def sampleExt : Ext :=
  { colorModeValue := fun _ => 0, contentValue := fun _ => 0,
    scalingValue := fun _ => 0, sidesValue := fun _ => 0,
    identifyActionsValue := fun _ => 0, labelModeValue := fun _ => 0,
    pwgMediaForPWG := fun _ => none, mediaColImport := fun _ m => m,
    contactImport := fun _ c => c, statusCbFn := fun p => p }

/-- A stopped printer showing the media-empty reason with no pause
request pending: the input on which the literal printer-state-reasons
claim fails. -/
def stoppedMediaEmptyPrinter : Printer :=
  { samplePrinter with
      state := IPP_PSTATE_STOPPED, state_reasons := 0x0080,
      is_stopped := false }

/-- A job currently printing. -/
def sampleProcessingJob : Job :=
  { job_id := 1, username := "guest", job_name := "t",
    state := IPP_JSTATE_PROCESSING }

/-- A printer whose current job is printing. -/
def processingPrinter : Printer :=
  { samplePrinter with
      state := IPP_PSTATE_PROCESSING,
      processing_job := some sampleProcessingJob,
      active_jobs := [sampleProcessingJob],
      all_jobs := [sampleProcessingJob] }

/-- A printer with a status callback, last refreshed at time 0. -/
def statusCbPrinter : Printer :=
  { samplePrinter with driver_data := { sampleDriverData with status_cb := true } }

/-- A copies attribute with the out-of-range value 1000. -/
def copies1000Attr : IppAttr :=
  IppAttr.mk .jobGroup .integer "copies" [IppVal.vInt 1000]

/-- A request asking for 1000 copies. -/
def copies1000Request : List IppAttr := [copies1000Attr]

/-- A my-jobs attribute with value true. -/
def myJobsTrueAttr : IppAttr :=
  IppAttr.mk .operationGroup .boolean "my-jobs" [IppVal.vBool true]

/-- A Get-Jobs request with my-jobs true and no requesting-user-name. -/
def myJobsNoUserRequest : List IppAttr := [myJobsTrueAttr]

/-- A Get-Jobs request with an unrecognized which-jobs value together
with my-jobs true and no requesting-user-name. -/
def bogusWhichJobsRequest : List IppAttr :=
  [IppAttr.mk .operationGroup .keyword "which-jobs" [IppVal.vStr "bogus"],
   myJobsTrueAttr]

/-- A Set-Printer-Attributes request with one unknown printer
attribute. -/
def bogusSetRequest : List IppAttr :=
  [IppAttr.mk .printerGroup .text "bogus-attribute" [IppVal.vStr "x"]]

/-- A Set-Printer-Attributes request whose only attribute passes the
preflight. -/
def locationSetRequest : List IppAttr :=
  [IppAttr.mk .printerGroup .text "printer-location" [IppVal.vStr "lab"]]

/-- A Get-Printer-Attributes request for a streaming raster format. -/
def pwgFormatRequest : List IppAttr :=
  [IppAttr.mk .operationGroup .mimetype "document-format"
    [IppVal.vStr "image/pwg-raster"]]

/-! ## Properties of the admission steps -/

/-- A check step only appends unsupported echoes carrying its own
attribute name, and only moves the response status to
attributes-or-values-not-supported. -/
def StepProp (f : VJState → VJState) (n : String) : Prop :=
  ∀ st : VJState,
    (∃ l, (f st).response.unsupported = st.response.unsupported ++ l ∧
      ∀ x ∈ l, x.name = n) ∧
    ((f st).response.status = st.response.status ∨
      (f st).response.status = .errorAttributesOrValues)

/-! ## Helper lemmas -/

theorem IppAttr.setGroup_name (a : IppAttr) (g : IppTag) :
    (a.setGroup g).name = a.name := by
  cases a; rfl

theorem ippFindAttribute_name {msg : List IppAttr} {n : String}
    {t : IppTag} {a : IppAttr} (h : ippFindAttribute msg n t = some a) :
    a.name = n := by
  have hp := List.find?_some h
  simp only [Bool.and_eq_true, beq_iff_eq] at hp
  exact hp.1

theorem stepLeaf {st st' : VJState} {a : IppAttr} {n : String}
    (hname : a.name = n)
    (h : st' = st ∨ st' = flagUnsupported st a ∨
      st' = flagUnsupported (flagUnsupported st a) a) :
    (∃ l, st'.response.unsupported = st.response.unsupported ++ l ∧
      ∀ x ∈ l, x.name = n) ∧
    (st'.response.status = st.response.status ∨
      st'.response.status = .errorAttributesOrValues) := by
  have hg : (a.setGroup .unsupportedGroup).name = n := by
    rw [IppAttr.setGroup_name]; exact hname
  rcases h with h | h | h <;> subst h
  · exact ⟨⟨[], by simp, by simp⟩, Or.inl rfl⟩
  · refine ⟨⟨[a.setGroup .unsupportedGroup], rfl, ?_⟩, Or.inr rfl⟩
    intro x hx
    rw [List.mem_singleton] at hx
    subst hx; exact hg
  · refine ⟨⟨[a.setGroup .unsupportedGroup, a.setGroup .unsupportedGroup],
      ?_, ?_⟩, Or.inr rfl⟩
    · simp [flagUnsupported]
    · intro x hx
      rcases List.mem_cons.mp hx with hx | hx
      · subst hx; exact hg
      · rw [List.mem_singleton] at hx; subst hx; exact hg

theorem stepLeaf1 {st st1 st' : VJState} {a : IppAttr} {n : String}
    (hname : a.name = n)
    (h1 : st1 = st ∨ st1 = flagUnsupported st a)
    (h : st' = st1 ∨ st' = flagUnsupported st1 a) :
    (∃ l, st'.response.unsupported = st.response.unsupported ++ l ∧
      ∀ x ∈ l, x.name = n) ∧
    (st'.response.status = st.response.status ∨
      st'.response.status = .errorAttributesOrValues) := by
  rcases h1 with h1 | h1 <;> subst h1 <;> rcases h with h | h <;> subst h
  · exact stepLeaf hname (Or.inl rfl)
  · exact stepLeaf hname (Or.inr (Or.inl rfl))
  · exact stepLeaf hname (Or.inr (Or.inl rfl))
  · exact stepLeaf hname (Or.inr (Or.inr rfl))

theorem stepProp_checkAttr (n : String) (bad : IppAttr → Bool) :
    StepProp (checkAttr n bad) n := by
  intro st
  unfold checkAttr
  cases hfind : ippFindAttribute st.request n .zero with
  | none => exact ⟨⟨[], by simp, by simp⟩, Or.inl rfl⟩
  | some a =>
      have hname := ippFindAttribute_name hfind
      dsimp only
      by_cases hb : bad a = true
      · rw [if_pos hb]
        exact stepLeaf hname (Or.inr (Or.inl rfl))
      · rw [if_neg hb]
        exact stepLeaf hname (Or.inl rfl)

theorem stepProp_jobNameStep : StepProp jobNameStep "job-name" := by
  intro st
  unfold jobNameStep
  cases hfind : ippFindAttribute st.request "job-name" .zero with
  | none => exact ⟨⟨[], by simp, by simp⟩, Or.inl rfl⟩
  | some a =>
      have hname := ippFindAttribute_name hfind
      have hg : (a.setGroup .unsupportedGroup).name = "job-name" := by
        rw [IppAttr.setGroup_name]; exact hname
      dsimp only
      by_cases hb : badJobName a = true
      · rw [if_pos hb]
        refine ⟨⟨[a.setGroup .unsupportedGroup], rfl, ?_⟩, Or.inr rfl⟩
        intro x hx
        rw [List.mem_singleton] at hx
        subst hx; exact hg
      · rw [if_neg hb]
        exact ⟨⟨[], by simp, by simp⟩, Or.inl rfl⟩

theorem mediaColBody_outcomes (printer : Printer) (a : IppAttr)
    (st1 : VJState) :
    mediaColBody printer a st1 = st1 ∨
      mediaColBody printer a st1 = flagUnsupported st1 a := by
  unfold mediaColBody
  dsimp only
  repeat' split
  all_goals first
    | exact Or.inl rfl
    | exact Or.inr rfl

theorem stepProp_mediaColStep (printer : Printer) :
    StepProp (mediaColStep printer) "media-col" := by
  intro st
  unfold mediaColStep
  cases hfind : ippFindAttribute st.request "media-col" .zero with
  | none => exact ⟨⟨[], by simp, by simp⟩, Or.inl rfl⟩
  | some a =>
      have hname := ippFindAttribute_name hfind
      dsimp only
      refine stepLeaf1 hname ?_ (mediaColBody_outcomes printer a _)
      split
      · exact Or.inr rfl
      · exact Or.inl rfl

theorem runSteps_cons (f : VJState → VJState)
    (fs : List (VJState → VJState)) (st : VJState) :
    runSteps (f :: fs) st = runSteps fs (f st) := rfl

theorem runSteps_avoid (m : String) (fs : List (VJState → VJState))
    (h : ∀ f ∈ fs, ∃ n, n ≠ m ∧ StepProp f n) (st : VJState) :
    (∃ l, (runSteps fs st).response.unsupported =
        st.response.unsupported ++ l ∧ ∀ x ∈ l, x.name ≠ m) ∧
    ((runSteps fs st).response.status = st.response.status ∨
      (runSteps fs st).response.status = .errorAttributesOrValues) := by
  induction fs generalizing st with
  | nil => exact ⟨⟨[], by simp [runSteps], by simp⟩, Or.inl rfl⟩
  | cons f fs ih =>
      obtain ⟨n, hn, hf⟩ := h f (List.mem_cons_self f fs)
      obtain ⟨⟨l1, e1, m1⟩, s1⟩ := hf st
      obtain ⟨⟨l2, e2, m2⟩, s2⟩ :=
        ih (fun g hg => h g (List.mem_cons_of_mem f hg)) (f st)
      rw [runSteps_cons]
      refine ⟨⟨l1 ++ l2, ?_, ?_⟩, ?_⟩
      · rw [e2, e1, List.append_assoc]
      · intro x hx
        rcases List.mem_append.mp hx with hx | hx
        · rw [m1 x hx]; exact hn
        · exact m2 x hx
      · rcases s2 with s2 | s2
        · rw [s2]; exact s1
        · exact Or.inr s2

theorem jobTemplateTail_avoid (ext : Ext) (printer : Printer) :
    ∀ f ∈ jobTemplateTail ext printer,
      ∃ n, n ≠ "copies" ∧ StepProp f n := by
  intro f hf
  simp only [jobTemplateTail, List.mem_cons, List.not_mem_nil,
    or_false] at hf
  rcases hf with rfl | rfl | rfl | rfl | rfl | rfl | rfl | rfl | rfl |
    rfl | rfl | rfl | rfl | rfl | rfl | rfl | rfl | rfl | rfl
  · exact ⟨_, by decide, stepProp_checkAttr "ipp-attribute-fidelity" _⟩
  · exact ⟨_, by decide, stepProp_checkAttr "job-hold-until" _⟩
  · exact ⟨_, by decide, stepProp_checkAttr "job-impressions" _⟩
  · exact ⟨_, by decide, stepProp_jobNameStep⟩
  · exact ⟨_, by decide, stepProp_checkAttr "job-priority" _⟩
  · exact ⟨_, by decide, stepProp_checkAttr "job-sheets" _⟩
  · exact ⟨_, by decide, stepProp_checkAttr "media" _⟩
  · exact ⟨_, by decide, stepProp_mediaColStep printer⟩
  · exact ⟨_, by decide, stepProp_checkAttr "multiple-document-handling" _⟩
  · exact ⟨_, by decide, stepProp_checkAttr "orientation-requested" _⟩
  · exact ⟨_, by decide, stepProp_checkAttr "page-ranges" _⟩
  · exact ⟨_, by decide, stepProp_checkAttr "print-color-mode" _⟩
  · exact ⟨_, by decide, stepProp_checkAttr "print-content-optimize" _⟩
  · exact ⟨_, by decide, stepProp_checkAttr "print-darkness" _⟩
  · exact ⟨_, by decide, stepProp_checkAttr "print-quality" _⟩
  · exact ⟨_, by decide, stepProp_checkAttr "print-scaling" _⟩
  · exact ⟨_, by decide, stepProp_checkAttr "print-speed" _⟩
  · exact ⟨_, by decide, stepProp_checkAttr "printer-resolution" _⟩
  · exact ⟨_, by decide, stepProp_checkAttr "sides" _⟩

/-! ## Claim theorems -/

/-- C1: for every Print-Job, Create-Job, or Validate-Job request
containing a copies attribute (admission being reached, i.e. no
shutdown pending), admission accepts the attribute iff it is a single
integer value in 1..999; otherwise the copies attribute with its
original values is echoed into the unsupported-attributes group and the
response status is client-error-attributes-or-values-not-supported. -/
theorem copies_admission_spec (ext : Ext) (printer : Printer)
    (doc_valid : Bool) (request : List IppAttr) (attr : IppAttr)
    (hfind : ippFindAttribute request "copies" .zero = some attr) :
    ((ippGetCount attr = 1 ∧ attr.tag = IppTag.integer ∧
        1 ≤ ippGetInteger attr 0 ∧ ippGetInteger attr 0 ≤ 999) ↔
      ∀ x ∈ (valid_job_attributes ext printer 0 doc_valid
          request).response.unsupported, x.name ≠ "copies") ∧
    (¬(ippGetCount attr = 1 ∧ attr.tag = IppTag.integer ∧
        1 ≤ ippGetInteger attr 0 ∧ ippGetInteger attr 0 ≤ 999) →
      attr.setGroup .unsupportedGroup ∈
        (valid_job_attributes ext printer 0 doc_valid
          request).response.unsupported ∧
      (valid_job_attributes ext printer 0 doc_valid
        request).response.status = .errorAttributesOrValues) := by
  have hred : valid_job_attributes ext printer 0 doc_valid request =
      runSteps (jobTemplateTail ext printer)
        (checkAttr "copies" badCopies
          (documentAttributesStep doc_valid
            { request := request,
              response := { status := .ok, unsupported := [] },
              valid := true })) := by
    unfold valid_job_attributes jobTemplateChecks
    rw [if_neg (show ¬(0 : Int) ≠ 0 by norm_num)]
    dsimp only
    rw [runSteps_cons]
  set st1 := documentAttributesStep doc_valid
      { request := request,
        response := { status := .ok, unsupported := [] },
        valid := true } with hst1
  have hreq : st1.request = request := by
    rw [hst1]; unfold documentAttributesStep; cases doc_valid <;> rfl
  have hunsup : st1.response.unsupported = [] := by
    rw [hst1]; unfold documentAttributesStep; cases doc_valid <;> rfl
  have hstep : checkAttr "copies" badCopies st1 =
      (if badCopies attr = true then flagUnsupported st1 attr else st1) := by
    unfold checkAttr
    rw [hreq, hfind]
  have hname : attr.name = "copies" := ippFindAttribute_name hfind
  by_cases hgood : (ippGetCount attr = 1 ∧ attr.tag = IppTag.integer ∧
      1 ≤ ippGetInteger attr 0 ∧ ippGetInteger attr 0 ≤ 999)
  · have hbad : badCopies attr = false := by
      unfold badCopies
      simp only [decide_eq_false_iff_not]
      push_neg
      exact hgood
    have hst2 : checkAttr "copies" badCopies st1 = st1 := by
      rw [hstep, hbad]; simp
    obtain ⟨⟨l, hl, hlname⟩, _⟩ :=
      runSteps_avoid "copies" (jobTemplateTail ext printer)
        (jobTemplateTail_avoid ext printer) st1
    constructor
    · constructor
      · intro _ x hx
        rw [hred, hst2, hl, hunsup, List.nil_append] at hx
        exact hlname x hx
      · intro _
        exact hgood
    · intro hcon
      exact absurd hgood hcon
  · have hbad : badCopies attr = true := by
      unfold badCopies
      simp only [decide_eq_true_eq]
      by_contra hP
      push_neg at hP
      exact hgood hP
    have hst2 : checkAttr "copies" badCopies st1 = flagUnsupported st1 attr := by
      rw [hstep, hbad]; simp
    obtain ⟨⟨l, hl, hlname⟩, hstatus⟩ :=
      runSteps_avoid "copies" (jobTemplateTail ext printer)
        (jobTemplateTail_avoid ext printer) (flagUnsupported st1 attr)
    have hflagu : (flagUnsupported st1 attr).response.unsupported =
        [attr.setGroup .unsupportedGroup] := by
      show st1.response.unsupported ++ [attr.setGroup .unsupportedGroup] =
        [attr.setGroup .unsupportedGroup]
      rw [hunsup, List.nil_append]
    have hmem : attr.setGroup .unsupportedGroup ∈
        (valid_job_attributes ext printer 0 doc_valid
          request).response.unsupported := by
      rw [hred, hst2, hl, hflagu]
      exact List.mem_append_left _ (List.mem_singleton_self _)
    have hstat : (valid_job_attributes ext printer 0 doc_valid
        request).response.status = .errorAttributesOrValues := by
      rw [hred, hst2]
      rcases hstatus with hs | hs
      · rw [hs]; rfl
      · exact hs
    constructor
    · constructor
      · intro h
        exact absurd h hgood
      · intro hall
        exfalso
        have := hall _ hmem
        rw [IppAttr.setGroup_name, hname] at this
        exact this rfl
    · intro _
      exact ⟨hmem, hstat⟩

/-- C4: while a shutdown deadline is set, admission rejects every
Print-Job, Create-Job, or Validate-Job request with
server-error-not-accepting-jobs before checking any job-template
attribute (the request and unsupported group are untouched) and without
creating a job (the printer is unchanged). -/
theorem shutdown_rejects_jobs (ext : Ext) (printer : Printer)
    (shutdown_time : Int) (doc_valid : Bool) (u : String) (now : Int)
    (request : List IppAttr) (h : shutdown_time ≠ 0) :
    valid_job_attributes ext printer shutdown_time doc_valid request =
      { request := request,
        response := { status := .errorNotAcceptingJobs, unsupported := [] },
        valid := false } ∧
    ((ipp_print_job ext printer shutdown_time doc_valid u true now
        request).printer = printer ∧
      (ipp_print_job ext printer shutdown_time doc_valid u true now
        request).response.status = .errorNotAcceptingJobs) ∧
    ((ipp_create_job ext printer shutdown_time doc_valid u false now
        request).printer = printer ∧
      (ipp_create_job ext printer shutdown_time doc_valid u false now
        request).response.status = .errorNotAcceptingJobs) ∧
    ((ipp_validate_job ext printer shutdown_time doc_valid
        request).printer = printer ∧
      (ipp_validate_job ext printer shutdown_time doc_valid
        request).response.status = .errorNotAcceptingJobs) := by
  have hva : valid_job_attributes ext printer shutdown_time doc_valid
      request =
      { request := request,
        response := { status := .errorNotAcceptingJobs, unsupported := [] },
        valid := false } := by
    unfold valid_job_attributes
    rw [if_pos h]
  refine ⟨hva, ⟨?_, ?_⟩, ⟨?_, ?_⟩, ⟨?_, ?_⟩⟩ <;>
    simp [ipp_print_job, ipp_create_job, ipp_validate_job, hva]

/-- C6: a Print-Job request without a document body and a Create-Job
request carrying document data are both rejected with
client-error-bad-request and create no job. -/
theorem body_mismatch_bad_request (ext : Ext) (printer : Printer)
    (shutdown_time : Int) (doc_valid : Bool) (u : String) (now : Int)
    (request : List IppAttr) :
    ((ipp_print_job ext printer shutdown_time doc_valid u false now
        request).printer = printer ∧
      (ipp_print_job ext printer shutdown_time doc_valid u false now
        request).response.status = .errorBadRequest) ∧
    ((ipp_create_job ext printer shutdown_time doc_valid u true now
        request).printer = printer ∧
      (ipp_create_job ext printer shutdown_time doc_valid u true now
        request).response.status = .errorBadRequest) :=
  ⟨⟨rfl, rfl⟩, ⟨rfl, rfl⟩⟩

/-- C9: Validate-Job never creates a job: whatever the admission
outcome, the job lists and the next job id of the printer are
unchanged. -/
theorem validate_job_frame (ext : Ext) (printer : Printer)
    (shutdown_time : Int) (doc_valid : Bool) (request : List IppAttr) :
    (ipp_validate_job ext printer shutdown_time doc_valid
        request).printer.active_jobs = printer.active_jobs ∧
    (ipp_validate_job ext printer shutdown_time doc_valid
        request).printer.completed_jobs = printer.completed_jobs ∧
    (ipp_validate_job ext printer shutdown_time doc_valid
        request).printer.all_jobs = printer.all_jobs ∧
    (ipp_validate_job ext printer shutdown_time doc_valid
        request).printer.next_job_id = printer.next_job_id := by
  unfold ipp_validate_job
  dsimp only
  split <;> exact ⟨rfl, rfl, rfl, rfl⟩

/-- C1 witness: a Print-Job request with copies = 1000 is rejected with
the copies attribute echoed as unsupported. -/
theorem copies_admission_witness :
    copies1000Attr.setGroup .unsupportedGroup ∈
      (valid_job_attributes sampleExt samplePrinter 0 true
        copies1000Request).response.unsupported ∧
    (valid_job_attributes sampleExt samplePrinter 0 true
      copies1000Request).response.status = .errorAttributesOrValues := by
  have h := copies_admission_spec sampleExt samplePrinter true
    copies1000Request copies1000Attr rfl
  exact h.2 (by decide)

/-- C4 witness: with a shutdown deadline of 9 the three job-creation
operations reject with not-accepting-jobs and leave the printer
alone. -/
theorem shutdown_rejects_jobs_witness :
    (ipp_validate_job sampleExt samplePrinter 9 true []).response.status =
      .errorNotAcceptingJobs ∧
    (ipp_print_job sampleExt samplePrinter 9 true "" true 0 []).printer =
      samplePrinter := by
  have h := shutdown_rejects_jobs sampleExt samplePrinter 9 true "" 0 []
    (by norm_num)
  exact ⟨h.2.2.2.2, h.2.1.1⟩

/-- C2 counterexample: with no processing job Cancel-Current-Job
answers client-error-not-found, not client-error-not-possible as the
claim states. -/
theorem cancel_current_no_job_counterexample :
    samplePrinter.processing_job = none ∧
    (ipp_cancel_current_job samplePrinter).2.status = .errorNotFound ∧
    (ipp_cancel_current_job samplePrinter).2.status ≠ .errorNotPossible := by
  refine ⟨rfl, rfl, ?_⟩
  decide

/-- C2 amended: Cancel-Current-Job answers client-error-not-found when
no job is processing, client-error-not-possible when the current job is
already canceled, aborted, or completed, and otherwise cancels the job
and answers successful-ok. -/
theorem cancel_current_job_spec (printer : Printer) :
    (printer.processing_job = none →
      (ipp_cancel_current_job printer).2.status = .errorNotFound ∧
      (ipp_cancel_current_job printer).1 = printer) ∧
    (∀ job, printer.processing_job = some job →
      ((job.state = IPP_JSTATE_CANCELED ∨ job.state = IPP_JSTATE_ABORTED ∨
          job.state = IPP_JSTATE_COMPLETED) →
        (ipp_cancel_current_job printer).2.status = .errorNotPossible ∧
        (ipp_cancel_current_job printer).1 = printer) ∧
      (job.state ≠ IPP_JSTATE_CANCELED → job.state ≠ IPP_JSTATE_ABORTED →
        job.state ≠ IPP_JSTATE_COMPLETED →
        (ipp_cancel_current_job printer).2.status = .ok ∧
        (ipp_cancel_current_job printer).1 = papplJobCancel printer job ∧
        (ipp_cancel_current_job printer).1.processing_job =
          some { job with state := IPP_JSTATE_CANCELED })) := by
  unfold ipp_cancel_current_job
  cases hpj : printer.processing_job with
  | none =>
      refine ⟨fun _ => ⟨rfl, rfl⟩, ?_⟩
      intro job hj
      exact absurd hj (by simp)
  | some job0 =>
      constructor
      · intro hcon
        exact absurd hcon (by simp)
      · intro job hj
        have hjob : job0 = job := by
          injection hj
        subst hjob
        constructor
        · rintro (hs | hs | hs) <;>
            simp [hs, IPP_JSTATE_CANCELED, IPP_JSTATE_ABORTED,
              IPP_JSTATE_COMPLETED]
        · intro h1 h2 h3
          dsimp only
          rw [if_neg h1, if_neg h2, if_neg h3]
          refine ⟨rfl, rfl, ?_⟩
          unfold papplJobCancel
          dsimp only
          rw [hpj]
          simp

/-- C2 witness: cancelling a printing job answers successful-ok and the
current job ends canceled. -/
theorem cancel_current_job_witness :
    (ipp_cancel_current_job processingPrinter).2.status = .ok ∧
    (ipp_cancel_current_job processingPrinter).1.processing_job =
      some { sampleProcessingJob with state := IPP_JSTATE_CANCELED } := by
  have h := (cancel_current_job_spec processingPrinter).2
    sampleProcessingJob rfl
  have h2 := h.2 (by decide) (by decide) (by decide)
  exact ⟨h2.1, h2.2.2⟩

/-- C3 counterexample: a stopped printer with the media-empty reason
and no pause pending reports both media-empty and paused, so paused
does not appear only when no other reasons are present. -/
theorem state_reasons_claim_counterexample :
    ¬ ((("moving-to-paused" ∈
          printerStateReasonsList stoppedMediaEmptyPrinter) ↔
        (stoppedMediaEmptyPrinter.is_stopped = true ∧
          stoppedMediaEmptyPrinter.state ≠ IPP_PSTATE_STOPPED)) ∧
       (("paused" ∈ printerStateReasonsList stoppedMediaEmptyPrinter) ↔
        (stoppedMediaEmptyPrinter.state = IPP_PSTATE_STOPPED ∧
          stoppedMediaEmptyPrinter.state_reasons = 0))) := by
  decide

theorem and_two_pow_ne_zero_of_testBit {r i : Nat}
    (h : r.testBit i = true) : r &&& 2 ^ i ≠ 0 := by
  intro hz
  have hb := congrArg (fun x => x.testBit i) hz
  simp only [Nat.testBit_and, h, Nat.testBit_two_pow_self,
    Bool.and_self, Nat.zero_testBit] at hb
  exact Bool.noConfusion hb

theorem preasonStrings_ne_nil {r : Nat} (h0 : r ≠ 0) (hlt : r < 32768) :
    preasonStrings r ≠ [] := by
  obtain ⟨i, hi⟩ := Nat.ne_zero_implies_bit_true h0
  have hlti : i < 15 := by
    by_contra hge
    push_neg at hge
    have hr : r < 2 ^ i := lt_of_lt_of_le hlt (by
      calc (32768 : Nat) = 2 ^ 15 := by norm_num
        _ ≤ 2 ^ i := Nat.pow_le_pow_right (by norm_num) hge)
    rw [Nat.testBit_lt_two_pow hr] at hi
    exact Bool.noConfusion hi
  have hand : r &&& 2 ^ i ≠ 0 := and_two_pow_ne_zero_of_testBit hi
  intro hempty
  unfold preasonStrings at hempty
  rw [List.filterMap_eq_nil_iff] at hempty
  have hall : ∀ p ∈ preasonTable, r &&& p.1 = 0 := by
    intro p hp
    have := hempty p hp
    by_cases hc : r &&& p.1 ≠ 0
    · rw [if_pos hc] at this
      exact Option.noConfusion this
    · push_neg at hc
      exact hc
  have hpow : ∀ j, j < 15 → ∃ s, ((2 ^ j : Nat), s) ∈ preasonTable := by
    intro j hj
    interval_cases j
    · exact ⟨"other", by decide⟩
    · exact ⟨"cover-open", by decide⟩
    · exact ⟨"input-tray-missing", by decide⟩
    · exact ⟨"marker-supply-empty", by decide⟩
    · exact ⟨"marker-supply-low", by decide⟩
    · exact ⟨"marker-waste-almost-full", by decide⟩
    · exact ⟨"marker-waste-full", by decide⟩
    · exact ⟨"media-empty", by decide⟩
    · exact ⟨"media-jam", by decide⟩
    · exact ⟨"media-low", by decide⟩
    · exact ⟨"media-needed", by decide⟩
    · exact ⟨"offline", by decide⟩
    · exact ⟨"spool-area-full", by decide⟩
    · exact ⟨"toner-empty", by decide⟩
    · exact ⟨"toner-low", by decide⟩
  obtain ⟨s, hmem⟩ := hpow i hlti
  exact hand (hall (2 ^ i, s) hmem)

theorem special_not_in_preasonStrings (r : Nat) :
    "moving-to-paused" ∉ preasonStrings r ∧
    "paused" ∉ preasonStrings r := by
  constructor <;>
  · intro h
    unfold preasonStrings at h
    rw [List.mem_filterMap] at h
    obtain ⟨p, hp, he⟩ := h
    split at he
    · injection he with he
      fin_cases hp <;> simp_all
    · exact Option.noConfusion he

/-- C3 amended: moving-to-paused appears in the printer-state-reasons
keyword list exactly when is_stopped is set (whatever the state), and
paused appears exactly when the state is stopped and is_stopped is
clear (whatever the other reasons), for bitsets within the fifteen
defined reason bits. -/
theorem state_reasons_keywords_spec (printer : Printer)
    (h : printer.state_reasons < 32768) :
    ("moving-to-paused" ∈ printerStateReasonsList printer ↔
      printer.is_stopped = true) ∧
    ("paused" ∈ printerStateReasonsList printer ↔
      (printer.is_stopped = false ∧
        printer.state = IPP_PSTATE_STOPPED)) := by
  obtain ⟨hm1, hm2⟩ :=
    special_not_in_preasonStrings printer.state_reasons
  unfold printerStateReasonsList
  by_cases hz : printer.state_reasons = 0
  · rw [if_pos hz]
    cases hs : printer.is_stopped <;>
      by_cases hst : printer.state = IPP_PSTATE_STOPPED <;>
      simp [hs, hst]
  · rw [if_neg hz]
    have hnn := preasonStrings_ne_nil hz h
    rw [if_neg (by simpa using hnn)]
    cases hs : printer.is_stopped <;>
      by_cases hst : printer.state = IPP_PSTATE_STOPPED <;>
      simp [hs, hst, hm1, hm2]

/-- C3 witness: a printer stopped with media-empty (and no pause
pending) shows paused; a pausing printer shows moving-to-paused. -/
theorem state_reasons_keywords_witness :
    "paused" ∈ printerStateReasonsList stoppedMediaEmptyPrinter ∧
    "moving-to-paused" ∈
      printerStateReasonsList
        { samplePrinter with is_stopped := true } := by
  constructor
  · exact (state_reasons_keywords_spec stoppedMediaEmptyPrinter
      (by decide)).2.mpr (by decide)
  · exact (state_reasons_keywords_spec
      { samplePrinter with is_stopped := true } (by decide)).1.mpr
      (by decide)

/-- C7: while handling Get-Printer-Attributes, the status driver
callback runs iff no job is processing, the device is idle, strictly
more than one second has elapsed since the last refresh, and a callback
is installed; when it runs the status timestamp is refreshed, and when
it does not run the printer is untouched. -/
theorem status_refresh_spec (ext : Ext) (now : Int) (printer : Printer) :
    ((getPrinterAttributesStatusRefresh ext now printer).2 = true ↔
      (printer.processing_job = none ∧ printer.device_in_use = false ∧
        1 < now - printer.status_time ∧
        printer.driver_data.status_cb = true)) ∧
    ((getPrinterAttributesStatusRefresh ext now printer).2 = true →
      (getPrinterAttributesStatusRefresh ext now
        printer).1.status_time = now) ∧
    ((getPrinterAttributesStatusRefresh ext now printer).2 = false →
      (getPrinterAttributesStatusRefresh ext now printer).1 = printer) := by
  unfold getPrinterAttributesStatusRefresh
  split
  case isTrue h =>
    simp only [Bool.and_eq_true, Bool.not_eq_true', decide_eq_true_eq,
      Option.isNone_iff_eq_none] at h
    obtain ⟨⟨⟨hd, hp⟩, ht⟩, hc⟩ := h
    exact ⟨by simp [hp, hd, ht, hc], fun _ => rfl,
      fun hf => Bool.noConfusion hf⟩
  case isFalse h =>
    refine ⟨⟨fun hf => Bool.noConfusion hf, fun hconj => ?_⟩,
      fun ht => Bool.noConfusion ht, fun _ => rfl⟩
    exfalso
    apply h
    simp only [Bool.and_eq_true, Bool.not_eq_true', decide_eq_true_eq,
      Option.isNone_iff_eq_none]
    exact ⟨⟨⟨hconj.2.1, hconj.1⟩, hconj.2.2.1⟩, hconj.2.2.2⟩

/-- C7 witness: at time 5, an idle printer last refreshed at time 0
with a status callback gets refreshed. -/
theorem status_refresh_witness :
    (getPrinterAttributesStatusRefresh sampleExt 5 statusCbPrinter).2 =
      true ∧
    (getPrinterAttributesStatusRefresh sampleExt 5
      statusCbPrinter).1.status_time = 5 := by
  have h := status_refresh_spec sampleExt 5 statusCbPrinter
  have h2 := h.1.mpr (by decide)
  exact ⟨h2, h.2.1 h2⟩

/-- C8: when copies-supported is requested, its reported range is 1..1
for the streaming raster document formats image/pwg-raster and
image/urf, and 1..999 for any other or absent format. -/
theorem copies_supported_spec (ra : Option (List String))
    (request : List IppAttr)
    (h : ra = none ∨ (ra.getD []).contains "copies-supported" = true) :
    copiesSupportedRange ra (requestDocumentFormat request) =
      some (if requestDocumentFormat request = some "image/pwg-raster" ∨
            requestDocumentFormat request = some "image/urf"
        then ((1 : Int), (1 : Int)) else (1, 999)) := by
  unfold copiesSupportedRange
  have hreq : (ra.isNone || (ra.getD []).contains "copies-supported") =
      true := by
    rcases h with h | h
    · simp [h]
    · rw [Bool.or_eq_true]
      exact Or.inr h
  rw [if_pos hreq]
  cases hf : requestDocumentFormat request with
  | none => simp
  | some f =>
      dsimp only
      by_cases hd : f = "image/pwg-raster" ∨ f = "image/urf"
      · rw [if_pos hd, if_pos (by simpa using hd)]
      · rw [if_neg hd, if_neg (by simpa using hd)]

/-- C8 witness: a request with document-format image/pwg-raster is
advertised copies-supported 1..1. -/
theorem copies_supported_witness :
    copiesSupportedRange none (requestDocumentFormat pwgFormatRequest) =
      some (1, 1) := by
  have h := copies_supported_spec none pwgFormatRequest (Or.inl rfl)
  simpa using h

theorem preflightOne_status (c : Bool) (p : Printer) (resp : Response)
    (a : IppAttr) :
    (preflightOne c p resp a).status =
      (if preflightRejects c p a = true then .errorAttributesOrValues
       else resp.status) := by
  unfold preflightOne preflightRejects respFlagUnsupported
  by_cases h1 : a.group = IppTag.operationGroup ∨ a.name = ""
  · simp only [if_pos h1]
    simp
  · simp only [if_neg h1]
    by_cases h2 : a.group ≠ IppTag.printerGroup
    · simp only [if_pos h2]
      simp
    · simp only [if_neg h2]
      by_cases h3 : (c = true ∧
          createPrinterExemptNames.contains a.name = true)
      · simp only [if_pos h3]
        simp
      · simp only [if_neg h3]
        by_cases h4 : (settablePrinterAttrs.any fun q =>
            a.name == q.1 && a.tag == q.2.1 &&
              decide (ippGetCount a ≤ q.2.2)) = true
        · simp only [if_pos h4]
          simp
        · simp only [if_neg h4]
          by_cases h5 : (p.driver_data.vendor.any fun v =>
              a.name == v ++ "-default") = true
          · simp only [if_pos h5]
            simp
          · simp only [if_neg h5]
            simp

theorem preflight_fold_status (c : Bool) (p : Printer)
    (req : List IppAttr) (resp : Response) :
    (req.foldl (preflightOne c p) resp).status = .ok ↔
      (resp.status = .ok ∧
        ∀ a ∈ req, preflightRejects c p a = false) := by
  induction req generalizing resp with
  | nil => simp [List.foldl]
  | cons a req ih =>
      rw [List.foldl_cons, ih]
      have hs := preflightOne_status c p resp a
      by_cases hr : preflightRejects c p a = true
      · rw [if_pos hr] at hs
        constructor
        · rintro ⟨h1, _⟩
          rw [hs] at h1
          exact absurd h1 (by decide)
        · rintro ⟨_, h2⟩
          have := h2 a (List.mem_cons_self a req)
          rw [hr] at this
          exact Bool.noConfusion this
      · rw [if_neg hr] at hs
        have hr' : preflightRejects c p a = false :=
          Bool.eq_false_iff.mpr hr
        constructor
        · rintro ⟨h1, h2⟩
          rw [hs] at h1
          refine ⟨h1, ?_⟩
          intro b hb
          rcases List.mem_cons.mp hb with rfl | hb
          · exact hr'
          · exact h2 b hb
        · rintro ⟨h1, h2⟩
          exact ⟨by rw [hs]; exact h1,
            fun b hb => h2 b (List.mem_cons_of_mem a hb)⟩

/-- C5: Set-Printer-Attributes preflights every request attribute
against the whitelist; if any attribute fails, it fails without
touching the printer and without notifying the system; if all pass, the
changes are applied, config_time is set to the current time, and the
system config-changed notification fires. -/
theorem set_printer_attributes_spec (ext : Ext) (create_printer : Bool)
    (now : Int) (printer : Printer) (request : List IppAttr) :
    ((∃ a ∈ request, preflightRejects create_printer printer a = true) →
      (_papplPrinterSetAttributes ext create_printer now printer
        request).ok = false ∧
      (_papplPrinterSetAttributes ext create_printer now printer
        request).printer = printer ∧
      (_papplPrinterSetAttributes ext create_printer now printer
        request).notified = false) ∧
    ((∀ a ∈ request, preflightRejects create_printer printer a = false) →
      (_papplPrinterSetAttributes ext create_printer now printer
        request).ok = true ∧
      (_papplPrinterSetAttributes ext create_printer now printer
        request).printer =
        { request.foldl (applyOne ext) printer with config_time := now } ∧
      (_papplPrinterSetAttributes ext create_printer now printer
        request).notified = true ∧
      (_papplPrinterSetAttributes ext create_printer now printer
        request).response.status = .ok) := by
  have hiff : (preflightResponse create_printer printer request).status =
      .ok ↔
      ∀ a ∈ request, preflightRejects create_printer printer a = false := by
    unfold preflightResponse
    rw [preflight_fold_status]
    simp
  by_cases hok :
    (preflightResponse create_printer printer request).status = .ok
  · have hres : _papplPrinterSetAttributes ext create_printer now printer
        request =
        { ok := true,
          printer :=
            { request.foldl (applyOne ext) printer with config_time := now },
          notified := true,
          response := preflightResponse create_printer printer request } := by
      unfold _papplPrinterSetAttributes
      rw [if_neg (not_not_intro hok)]
    constructor
    · rintro ⟨a, ha, hr⟩
      have := hiff.mp hok a ha
      rw [hr] at this
      exact Bool.noConfusion this
    · intro _
      rw [hres]
      exact ⟨rfl, rfl, rfl, hok⟩
  · have hres : _papplPrinterSetAttributes ext create_printer now printer
        request =
        { ok := false, printer := printer, notified := false,
          response := preflightResponse create_printer printer request } := by
      unfold _papplPrinterSetAttributes
      rw [if_pos hok]
    constructor
    · intro _
      rw [hres]
      exact ⟨rfl, rfl, rfl⟩
    · intro hall
      exact absurd (hiff.mpr hall) hok

/-- C5 witness: one unknown attribute makes the whole operation fail
with the printer untouched; a lone printer-location attribute passes
and config_time is bumped with the system notified. -/
theorem set_printer_attributes_witness :
    (_papplPrinterSetAttributes sampleExt false 42 samplePrinter
      bogusSetRequest).ok = false ∧
    (_papplPrinterSetAttributes sampleExt false 42 samplePrinter
      bogusSetRequest).printer = samplePrinter ∧
    (_papplPrinterSetAttributes sampleExt false 42 samplePrinter
      locationSetRequest).ok = true ∧
    (_papplPrinterSetAttributes sampleExt false 42 samplePrinter
      locationSetRequest).printer.config_time = 42 ∧
    (_papplPrinterSetAttributes sampleExt false 42 samplePrinter
      locationSetRequest).notified = true := by
  have hfail := (set_printer_attributes_spec sampleExt false 42
    samplePrinter bogusSetRequest).1
    ⟨IppAttr.mk .printerGroup .text "bogus-attribute" [IppVal.vStr "x"],
      by simp [bogusSetRequest], by decide⟩
  have hsucc := (set_printer_attributes_spec sampleExt false 42
    samplePrinter locationSetRequest).2 (by
      intro a ha
      simp only [locationSetRequest, List.mem_singleton] at ha
      subst ha
      decide)
  refine ⟨hfail.1, hfail.2.1, hsucc.1, ?_, hsucc.2.2.1⟩
  rw [hsucc.2.1]

/-- C10 counterexample: a Get-Jobs request with an unrecognized
which-jobs value, my-jobs true, and no requesting-user-name is rejected
with client-error-attributes-or-values-not-supported, not
client-error-bad-request as the claim states. -/
theorem get_jobs_myjobs_counterexample :
    ippFindAttribute bogusWhichJobsRequest "my-jobs" .boolean =
      some myJobsTrueAttr ∧
    ippGetBoolean myJobsTrueAttr 0 = true ∧
    ippFindAttribute bogusWhichJobsRequest "requesting-user-name"
      .nameTag = none ∧
    (ipp_get_jobs samplePrinter bogusWhichJobsRequest).status =
      .errorAttributesOrValues ∧
    (ipp_get_jobs samplePrinter bogusWhichJobsRequest).status ≠
      .errorBadRequest := by
  refine ⟨rfl, rfl, rfl, rfl, by decide⟩

/-- C10 amended: a Get-Jobs request whose which-jobs value is absent or
recognized, containing my-jobs true but no requesting-user-name,
answers client-error-bad-request with no job attributes returned. -/
theorem get_jobs_myjobs_spec (printer : Printer)
    (request : List IppAttr) (a : IppAttr)
    (hw : requestWhichJobs request = none ∨
      requestWhichJobs request = some "not-completed" ∨
      requestWhichJobs request = some "completed" ∨
      requestWhichJobs request = some "all")
    (hmy : ippFindAttribute request "my-jobs" .boolean = some a)
    (htrue : ippGetBoolean a 0 = true)
    (huser : ippFindAttribute request "requesting-user-name" .nameTag =
      none) :
    (ipp_get_jobs printer request).status = .errorBadRequest ∧
    (ipp_get_jobs printer request).jobs = [] := by
  unfold ipp_get_jobs
  rcases hw with hw | hw | hw | hw <;>
    simp [hw, hmy, htrue, huser]

/-- C10 witness: my-jobs true without requesting-user-name (and no
which-jobs) is a bad request with no jobs returned. -/
theorem get_jobs_myjobs_witness :
    (ipp_get_jobs samplePrinter myJobsNoUserRequest).status =
      .errorBadRequest ∧
    (ipp_get_jobs samplePrinter myJobsNoUserRequest).jobs = [] :=
  get_jobs_myjobs_spec samplePrinter myJobsNoUserRequest myJobsTrueAttr
    (Or.inl rfl) rfl rfl rfl

end Pappl
